import Mathlib

set_option maxRecDepth 8000

/- Embedding of the rr-image-downloader repository: the v1 script (download.py)
   and the v2 class (v2/main.py, class ImageDownloader).  Python strings are
   modeled as List Char; JSON records by their relevant fields; the filesystem
   as an association list from paths to contents. -/

/- ## Pagination
   v1: download.py, gather_image_urls (lines 69-88)
   v2: v2/main.py, ImageDownloader._download_image_data (188-207) together with
       _get_image_data_url (228-231), whose offset is page*1000. -/

/-- A conforming listing endpoint holding `total` records, identified by index
0,1,...,total-1: a request with query parameters take/skip returns exactly the
records in [skip, skip+take) of the full list. -/
def serve (total take skip : Nat) : List Nat :=
  ((List.range total).drop skip).take take

def MAX_IMAGES_PER_RESPONSE : Nat := 1000

/-- Loop of download.py gather_image_urls, run against a conforming endpoint
with `total` records.  Faithful to the source: image_count := len(resp);
total_image_count += image_count; skip += total_image_count; break when
image_count != MAX_IMAGES_PER_RESPONSE.  Returns (records gathered, request
offsets issued).  The fuel argument only bounds the recursion; gather_image_urls
below passes enough fuel that it is never exhausted on a conforming endpoint. -/
def gather_image_urls_loop (total : Nat) : Nat → Nat → Nat → List Nat × List Nat
  | 0, _, _ => ([], [])
  | Nat.succ fuel, skip, total_image_count =>
    let resp := serve total MAX_IMAGES_PER_RESPONSE skip
    let image_count := resp.length
    let total_image_count2 := total_image_count + image_count
    let skip2 := skip + total_image_count2
    if image_count ≠ MAX_IMAGES_PER_RESPONSE then
      (resp, [skip])
    else
      let r := gather_image_urls_loop total fuel skip2 total_image_count2
      (resp ++ r.1, skip :: r.2)

/-- download.py gather_image_urls against a conforming endpoint with `total`
records: starts at skip = 0, total_image_count = 0. -/
def gather_image_urls (total : Nat) : List Nat × List Nat :=
  gather_image_urls_loop total (total + 1) 0 0

namespace V2

def PAGE_MAX_COUNT : Nat := 1000

/-- Loop of ImageDownloader._download_image_data run against a conforming
endpoint with `total` records: page p is requested at offset p*1000
(_get_image_data_url), and the loop breaks when a page's record count is
strictly below PAGE_MAX_COUNT.  Returns (records gathered, request offsets). -/
def paginate_loop (total : Nat) : Nat → Nat → List Nat × List Nat
  | 0, _ => ([], [])
  | Nat.succ fuel, page =>
    let images_json := serve total 1000 (page * 1000)
    let count := images_json.length
    if count < PAGE_MAX_COUNT then
      (images_json, [page * 1000])
    else
      let r := paginate_loop total fuel (page + 1)
      (images_json ++ r.1, page * 1000 :: r.2)

/-- ImageDownloader._download_image_data pagination, starting at page 0. -/
def paginate (total : Nat) : List Nat × List Nat :=
  paginate_loop total (total + 1) 0

end V2

/- ## Sessions and the timeout constant
   v1: download.py HEADERS/TIMEOUT (17-25) and main (122-133)
   v2: v2/main.py TIMEOUT (47) and ImageDownloader.create (68-78) -/

structure ClientTimeout where
  total : Option Nat
deriving DecidableEq

/-- download.py line 25: TIMEOUT = aiohttp.ClientTimeout(total=30). -/
def TIMEOUT : ClientTimeout := ClientTimeout.mk (some 30)

/-- The keyword arguments a ClientSession is constructed with. -/
structure ClientSessionArgs where
  headersProvided : Bool
  timeout : Option ClientTimeout
deriving DecidableEq

/-- download.py line 123: session = aiohttp.ClientSession(headers=HEADERS) —
headers are passed, no timeout argument is passed. -/
def main_session : ClientSessionArgs := ClientSessionArgs.mk true none

/-- download.py line 24. -/
def CONCURRENCY : Nat := 50

namespace V2

/-- v2/main.py line 47: TIMEOUT = aiohttp.ClientTimeout(total=30). -/
def TIMEOUT : ClientTimeout := ClientTimeout.mk (some 30)

/-- v2/main.py line 74: self.session = aiohttp.ClientSession() — constructed
with no arguments at all. -/
def session_args : ClientSessionArgs := ClientSessionArgs.mk false none

/-- v2/main.py line 46. -/
def CONCURRENCY : Nat := 30

end V2

/- ## Transfer executor
   v1: download.py download_image (50-66)
   v2: v2/main.py ImageDownloader._download_image (340-353) -/

inductive TransferError where
  | statusError (code : Nat)
  | networkError
  | timeoutError
  | writeError
deriving DecidableEq

/-- The environment one transfer attempt runs against: whether session.get
raises (network failure or timeout), the HTTP status of the response, the body
chunks that resp.content.iter_chunked yields, and the chunk index (if any) at
which the read/write raises mid-stream. -/
structure TransferEnv where
  getError : Option TransferError
  status : Nat
  chunks : List (List Char)
  failAt : Option Nat
deriving DecidableEq

/-- Local filesystem: association list from paths to file contents. -/
structure FS where
  files : List ((List Char) × (List Char))
deriving DecidableEq

def setFile (fs : FS) (path contents : List Char) : FS :=
  FS.mk ((path, contents) :: fs.files.filter (fun e => !(e.1 == path)))

def getFile (fs : FS) (path : List Char) : Option (List Char) :=
  (fs.files.find? (fun e => e.1 == path)).map (fun e => e.2)

/-- The chunked write loop: aiofiles.open(filepath, "wb") has already created
(truncated) the file; each chunk is appended, and a read/write error at chunk
index failAt aborts, leaving the partial file in place. -/
def write_chunks (path : List Char) (failAt : Option Nat) :
    Nat → List Char → List (List Char) → FS → Except TransferError Unit × FS
  | _, _, [], fs => (Except.ok (), fs)
  | i, written, c :: rest, fs =>
    if failAt = some i then (Except.error TransferError.writeError, fs)
    else write_chunks path failAt (i + 1) (written ++ c) rest (setFile fs path (written ++ c))

/-- The try-block of download_image / _download_image: session.get(url) (which
may raise), resp.raise_for_status() (raises for any status >= 400), then open
the destination file for writing and stream the body chunk by chunk. -/
def transfer_body (env : TransferEnv) (path : List Char) (fs : FS) :
    Except TransferError Unit × FS :=
  match env.getError with
  | some e => (Except.error e, fs)
  | none =>
    if 400 ≤ env.status then (Except.error (TransferError.statusError env.status), fs)
    else write_chunks path env.failAt 0 [] env.chunks (setFile fs path [])

/-- download.py download_image (50-66): the try/except Exception boundary —
a successful body yields True, any raised error is caught and yields False. -/
def download_image (env : TransferEnv) (img_tuple : (List Char) × (List Char)) (fs : FS) :
    Bool × FS :=
  match transfer_body env img_tuple.2 fs with
  | (Except.ok _, fs2) => (true, fs2)
  | (Except.error _, fs2) => (false, fs2)

namespace V2

/-- v2/main.py line 20: Image = namedtuple("Image", ["url", "filepath"]). -/
structure Image where
  url : List Char
  filepath : List Char
deriving DecidableEq

/-- v2/main.py _download_image (340-353): same try/except boundary as v1. -/
def download_image (env : TransferEnv) (image : Image) (fs : FS) : Bool × FS :=
  match transfer_body env image.filepath fs with
  | (Except.ok _, fs2) => (true, fs2)
  | (Except.error _, fs2) => (false, fs2)

end V2

/- ## Worker pool
   v1: download.py download_all (39-47)
   v2: v2/main.py ImageDownloader._download_all (328-334) -/

/-- The per-task execution underlying tqdm_asyncio.gather in download_all: one
download_image invocation per image tuple, one Bool result per task (the i-th
task runs against environment envOf i). -/
def download_tasks (envOf : Nat → TransferEnv) :
    Nat → List ((List Char) × (List Char)) → FS → List Bool × FS
  | _, [], fs => ([], fs)
  | i, t :: ts, fs =>
    let r := download_image (envOf i) t fs
    let rest := download_tasks envOf (i + 1) ts r.2
    (r.1 :: rest.1, rest.2)

/-- download.py download_all (39-47): gathers one download_image task per
element of image_urls. -/
def download_all (image_urls : List ((List Char) × (List Char)))
    (envOf : Nat → TransferEnv) (fs : FS) : List Bool × FS :=
  download_tasks envOf 0 image_urls fs

/-- The summary download_all prints (line 47): sum(results) / len(image_urls),
"Downloaded X / Y images". -/
def download_all_summary (image_urls : List ((List Char) × (List Char)))
    (envOf : Nat → TransferEnv) (fs : FS) : Nat × Nat :=
  ((download_all image_urls envOf fs).1.countP (fun b => b), image_urls.length)

namespace V2

def download_tasks (envOf : Nat → TransferEnv) :
    Nat → List Image → FS → List Bool × FS
  | _, [], fs => ([], fs)
  | i, img :: rest, fs =>
    let r := download_image (envOf i) img fs
    let rest2 := download_tasks envOf (i + 1) rest r.2
    (r.1 :: rest2.1, rest2.2)

/-- v2/main.py _download_all (328-334): asserts total_count != 0, then gathers
one _download_image per entry of images_to_download and returns the number of
successes.  A failing assert statement is modeled as Except.error carrying the
assertion message. -/
def download_all (total_count : Nat) (images_to_download : List Image)
    (envOf : Nat → TransferEnv) (fs : FS) : Except (List Char) (Nat × FS) :=
  if total_count = 0 then Except.error ("No photos to download!".data)
  else
    let r := download_tasks envOf 0 images_to_download fs
    Except.ok (r.1.countP (fun b => b), r.2)

/-- v2/main.py archive (105-120), download phase (after _gather_images has set
the counts and the user confirmed): total_count = photos_count + tagged_count,
then _download_all, then the final "Downloaded X / Y images." line, whose pair
(X, Y) is returned. -/
def archive (photos_count tagged_count : Nat) (images_to_download : List Image)
    (envOf : Nat → TransferEnv) (fs : FS) : Except (List Char) ((Nat × Nat) × FS) :=
  let total_count := photos_count + tagged_count
  match download_all total_count images_to_download envOf fs with
  | Except.error m => Except.error m
  | Except.ok (n, fs2) => Except.ok ((n, total_count), fs2)

/- ## Class-level shared state (v2/main.py 49-62, 68-78, 195-197) -/

/-- The class-level attribute ImageDownloader.images_to_download (line 58):
one shared list per process, not one per instance. -/
structure ClassState where
  images_to_download : List Image
deriving DecidableEq

/-- ImageDownloader.__init__ (61-62) sets account_id only. -/
structure Inst where
  account_id : Nat
deriving DecidableEq

/-- ImageDownloader.create (68-78): builds the instance, creates directories,
sessions and the semaphore; the class-level images_to_download is untouched. -/
def create (account_id : Nat) (cs : ClassState) : Inst × ClassState :=
  (Inst.mk account_id, cs)

/-- The pages of one _download_image_data run, each applied through line 197,
self.images_to_download += images_with_count.images: += on the class-level
list extends the shared list in place. -/
def download_image_data_pages : ClassState → List (List Image) → ClassState
  | cs, [] => cs
  | cs, pg :: rest =>
    download_image_data_pages (ClassState.mk (cs.images_to_download ++ pg)) rest

end V2

/- ## Concurrency ceiling
   v1: download.py Semaphore(CONCURRENCY) (42) acquired in download_image (54)
   v2: v2/main.py Semaphore(CONCURRENCY) (75) acquired in _download_image (341) -/

inductive TaskPhase where
  | waiting
  | running
  | finished
deriving DecidableEq

/-- Number of transfers currently in flight (tasks inside `async with sem`). -/
def inFlight : List TaskPhase → Nat
  | [] => 0
  | TaskPhase.running :: s => inFlight s + 1
  | TaskPhase.waiting :: s => inFlight s
  | TaskPhase.finished :: s => inFlight s

/-- One scheduler step of the worker pool under asyncio.Semaphore(C): a waiting
task may enter its transfer only when fewer than C transfers hold the
semaphore; a running task may finish, releasing its slot unconditionally. -/
inductive PoolStep (C : Nat) : List TaskPhase → List TaskPhase → Prop where
  | acquire (s1 s2 : List TaskPhase) :
      inFlight (s1 ++ TaskPhase.waiting :: s2) < C →
      PoolStep C (s1 ++ TaskPhase.waiting :: s2) (s1 ++ TaskPhase.running :: s2)
  | finish (s1 s2 : List TaskPhase) :
      PoolStep C (s1 ++ TaskPhase.running :: s2) (s1 ++ TaskPhase.finished :: s2)

/-- Reflexive-transitive closure of PoolStep. -/
inductive PoolReach (C : Nat) : List TaskPhase → List TaskPhase → Prop where
  | refl (s : List TaskPhase) : PoolReach C s s
  | step {s t u : List TaskPhase} : PoolReach C s t → PoolStep C t u → PoolReach C s u

/-- A batch of n tasks, none started yet. -/
def poolStart (n : Nat) : List TaskPhase := List.replicate n TaskPhase.waiting

/- ## Task builder / destination filenames
   v1: download.py create_image_tuple (93-106), add_png_extension_if_missing
       (116-119), FOLDER (22)
   v2: v2/main.py _format_filename (263-273), _shorten_creation_timestamp
       (280-283), _add_png_extension_if_missing (318-321) -/

def FOLDER : List Char := "images".data

/-- download.py add_png_extension_if_missing (116-119): appends ".png" exactly
when the whole filename contains no '.'. -/
def add_png_extension_if_missing (filename : List Char) : List Char :=
  if '.' ∈ filename then filename else filename ++ ".png".data

/-- Python s.split("T")[0]: the prefix of s before the first 'T' (all of s
when there is none). -/
def before_T (s : List Char) : List Char := s.takeWhile (fun c => c != 'T')

/-- download.py create_image_tuple (93-106): returns (image url, filepath);
the filename is f-string creation_date [Id] image_name, then
add_png_extension_if_missing, then os.path.join(FOLDER, filename). -/
def create_image_tuple (ImageName CreatedAt : List Char) (Id : Nat) :
    (List Char) × (List Char) :=
  let image_name := ImageName
  let creation_date := before_T CreatedAt
  let filename := creation_date ++ " [".data ++ (Nat.repr Id).data ++ "] ".data ++ image_name
  let filename2 := add_png_extension_if_missing filename
  let filepath := FOLDER ++ "/".data ++ filename2
  ("https://img.rec.net/".data ++ image_name, filepath)

namespace V2

/-- v2/main.py _add_png_extension_if_missing (318-321). -/
def add_png_extension_if_missing (filename : List Char) : List Char :=
  if '.' ∈ filename then filename else filename ++ ".png".data

/-- v2/main.py _shorten_creation_timestamp (280-283). -/
def shorten_creation_timestamp (creation_timestamp : List Char) : List Char :=
  if 'T' ∈ creation_timestamp then before_T creation_timestamp
  else creation_timestamp

/-- v2/main.py _format_filename (263-273): f-string
creation_date [Id] [player: PlayerId] [room: RoomId] ImageName, then
_add_png_extension_if_missing. -/
def format_filename (Id : Nat) (CreatedAt : List Char) (PlayerId RoomId : Nat)
    (ImageName : List Char) : List Char :=
  let creation_date := shorten_creation_timestamp CreatedAt
  let filename := creation_date ++ " [".data ++ (Nat.repr Id).data
    ++ "] [player: ".data ++ (Nat.repr PlayerId).data
    ++ "] [room: ".data ++ (Nat.repr RoomId).data ++ "] ".data ++ ImageName
  add_png_extension_if_missing filename

end V2

/- ## Theorems -/

theorem serve_length (total take skip : Nat) :
    (serve total take skip).length = min take (total - skip) := by
  simp [serve]

theorem gather_loop_full (total fuel1 fuel skip tic : Nat) (hf : fuel1 = fuel + 1)
    (h : (serve total MAX_IMAGES_PER_RESPONSE skip).length = MAX_IMAGES_PER_RESPONSE) :
    gather_image_urls_loop total fuel1 skip tic =
      (serve total MAX_IMAGES_PER_RESPONSE skip ++
        (gather_image_urls_loop total fuel (skip + (tic + MAX_IMAGES_PER_RESPONSE))
          (tic + MAX_IMAGES_PER_RESPONSE)).1,
       skip :: (gather_image_urls_loop total fuel (skip + (tic + MAX_IMAGES_PER_RESPONSE))
          (tic + MAX_IMAGES_PER_RESPONSE)).2) := by
  subst hf
  simp [gather_image_urls_loop, h]

theorem gather_loop_last (total fuel1 fuel skip tic : Nat) (hf : fuel1 = fuel + 1)
    (h : (serve total MAX_IMAGES_PER_RESPONSE skip).length ≠ MAX_IMAGES_PER_RESPONSE) :
    gather_image_urls_loop total fuel1 skip tic =
      (serve total MAX_IMAGES_PER_RESPONSE skip, [skip]) := by
  subst hf
  simp [gather_image_urls_loop, h]

theorem paginate_loop_full (total fuel1 fuel page : Nat) (hf : fuel1 = fuel + 1)
    (h : ¬ (serve total 1000 (page * 1000)).length < V2.PAGE_MAX_COUNT) :
    V2.paginate_loop total fuel1 page =
      (serve total 1000 (page * 1000) ++ (V2.paginate_loop total fuel (page + 1)).1,
       page * 1000 :: (V2.paginate_loop total fuel (page + 1)).2) := by
  subst hf
  simp [V2.paginate_loop, h]

theorem paginate_loop_last (total fuel1 fuel page : Nat) (hf : fuel1 = fuel + 1)
    (h : (serve total 1000 (page * 1000)).length < V2.PAGE_MAX_COUNT) :
    V2.paginate_loop total fuel1 page =
      (serve total 1000 (page * 1000), [page * 1000]) := by
  subst hf
  simp [V2.paginate_loop, h]

theorem serve_2400_3000 : serve 2400 1000 3000 = [] := by
  unfold serve
  rw [List.drop_eq_nil_of_le (by simp)]
  simp

/-- Full evaluation of download.py gather_image_urls against a conforming
endpoint with 2400 records: three requests at offsets 0, 1000 and then 3000
(because skip += total_image_count accumulates the running total instead of
the page size), returning only records 0..1999. -/
theorem gather_image_urls_2400 :
    gather_image_urls 2400 = (List.range 2000, [0, 1000, 3000]) := by
  have h0 : (serve 2400 1000 0).length = 1000 := by rw [serve_length]; decide
  have h1 : (serve 2400 1000 1000).length = 1000 := by rw [serve_length]; decide
  have h3 : (serve 2400 1000 3000).length ≠ 1000 := by rw [serve_length]; decide
  unfold gather_image_urls
  rw [gather_loop_full 2400 (2400 + 1) 2400 0 0 rfl h0]
  norm_num [MAX_IMAGES_PER_RESPONSE]
  rw [gather_loop_full 2400 2400 2399 1000 1000 (by norm_num) h1]
  norm_num [MAX_IMAGES_PER_RESPONSE]
  rw [gather_loop_last 2400 2399 2398 3000 2000 (by norm_num) h3]
  norm_num [MAX_IMAGES_PER_RESPONSE]
  rw [serve_2400_3000]
  simp only [serve, List.drop_zero, List.append_nil]
  rw [← List.take_add, List.take_range]
  norm_num

/-- Full evaluation of the v2 paginator against a conforming endpoint with
2400 records: three requests at offsets 0, 1000 and 2000 returning every
record. -/
theorem paginate_2400 :
    V2.paginate 2400 = (List.range 2400, [0, 1000, 2000]) := by
  have h0 : ¬ (serve 2400 1000 (0 * 1000)).length < V2.PAGE_MAX_COUNT := by
    rw [serve_length]; decide
  have h1 : ¬ (serve 2400 1000 (1 * 1000)).length < V2.PAGE_MAX_COUNT := by
    rw [serve_length]; decide
  have h2 : (serve 2400 1000 (2 * 1000)).length < V2.PAGE_MAX_COUNT := by
    rw [serve_length]; decide
  unfold V2.paginate
  rw [paginate_loop_full 2400 (2400 + 1) 2400 0 rfl h0]
  rw [paginate_loop_full 2400 2400 2399 1 (by norm_num) h1]
  rw [paginate_loop_last 2400 2399 2398 2 (by norm_num) h2]
  norm_num
  simp only [serve, List.drop_zero]
  rw [List.take_of_length_le (l := (List.range 2400).drop 2000) (by simp),
    show (2000 : Nat) = 1000 + 1000 from rfl, List.drop_take_append_drop,
    List.take_append_drop]

/-- C1: for an endpoint conformingly serving 2400 records as pages of
1000/1000/400, both paginators issue exactly 3 requests, but only the v2
paginator requests offsets 0,1000,2000 and returns all 2400 records; the v1
script (skip += total_image_count in gather_image_urls) issues its third
request at offset 3000 and returns only 2000 of the 2400 records, refuting
the claim for the v1 paginator. -/
theorem C1_pagination_2400 :
    (V2.paginate 2400).2 = [0, 1000, 2000]
    ∧ (V2.paginate 2400).1 = List.range 2400
    ∧ (gather_image_urls 2400).2 = [0, 1000, 3000]
    ∧ (gather_image_urls 2400).1.length = 2000 := by
  rw [gather_image_urls_2400, paginate_2400]
  simp

/-- C6: pagination bounds at the failing input.  The v1 paginator at 2400
records issues offsets [0, 1000, 3000]: its first two requests return 2000
records in all, yet the third request is issued at offset 3000 > 2000, beyond
the records already returned — refuting the claim's "never issues a request
whose offset is beyond the records already returned" for the v1 script.  The
request-count bound ceil(2400/1000)+1 holds there, termination on a
zero-record endpoint holds for both paginators, and the v2 paginator requests
offsets 0,1000,2000, each equal to the number of records returned before it. -/
theorem C6_pagination_bounds :
    (gather_image_urls 2400).2 = [0, 1000, 3000]
    ∧ (serve 2400 1000 0).length + (serve 2400 1000 1000).length = 2000
    ∧ 2000 < 3000
    ∧ (gather_image_urls 2400).2.length ≤ (2400 + 999) / 1000 + 1
    ∧ (gather_image_urls 0).2 = [0]
    ∧ (V2.paginate 2400).2 = [0, 1000, 2000]
    ∧ (V2.paginate 2400).2.length ≤ (2400 + 999) / 1000 + 1
    ∧ (V2.paginate 0).2 = [0] := by
  rw [gather_image_urls_2400, paginate_2400]
  refine ⟨rfl, ?_, by norm_num, by norm_num, by decide, rfl, by norm_num, by decide⟩
  rw [serve_length, serve_length]
  decide

/-- C2: the 30-second ClientTimeout policy constants are declared in both
versions, but neither session used for transfers is constructed with any
timeout argument, so the declared TIMEOUT is never enforced on a request
(aiohttp's own default governs instead): the claim fails on the code. -/
theorem C2_timeout_not_wired :
    TIMEOUT.total = some 30 ∧ V2.TIMEOUT.total = some 30
    ∧ main_session.timeout = none ∧ V2.session_args.timeout = none
    ∧ main_session.timeout ≠ some TIMEOUT
    ∧ V2.session_args.timeout ≠ some V2.TIMEOUT := by
  refine ⟨rfl, rfl, rfl, rfl, by decide, by decide⟩

theorem download_image_spec (env : TransferEnv) (t : (List Char) × (List Char)) (fs : FS) :
    download_image env t fs =
      ((match (transfer_body env t.2 fs).1 with
        | Except.ok _ => true
        | Except.error _ => false), (transfer_body env t.2 fs).2) := by
  unfold download_image
  rcases hb : transfer_body env t.2 fs with ⟨b, fs2⟩
  cases b <;> rfl

theorem v2_download_image_spec (env : TransferEnv) (img : V2.Image) (fs : FS) :
    V2.download_image env img fs =
      ((match (transfer_body env img.filepath fs).1 with
        | Except.ok _ => true
        | Except.error _ => false), (transfer_body env img.filepath fs).2) := by
  unfold V2.download_image
  rcases hb : transfer_body env img.filepath fs with ⟨b, fs2⟩
  cases b <;> rfl

theorem download_tasks_length (envOf : Nat → TransferEnv) :
    ∀ (ts : List ((List Char) × (List Char))) (i : Nat) (fs : FS),
      (download_tasks envOf i ts fs).1.length = ts.length := by
  intro ts
  induction ts with
  | nil => intro i fs; rfl
  | cons t ts ih => intro i fs; simp [download_tasks, ih]

theorem v2_download_tasks_length (envOf : Nat → TransferEnv) :
    ∀ (ts : List V2.Image) (i : Nat) (fs : FS),
      (V2.download_tasks envOf i ts fs).1.length = ts.length := by
  intro ts
  induction ts with
  | nil => intro i fs; rfl
  | cons t ts ih => intro i fs; simp [V2.download_tasks, ih]

/-- C3: the try/except Exception boundary of download_image (v1) and
_download_image (v2) converts every raised error — session.get errors
(network failure, timeout), raise_for_status failures, and mid-stream
read/write failures — into a False result; a successful body yields True; and
a task with a failing environment never prevents the pool from producing one
result per sibling task. -/
theorem C3_task_boundary :
    (∀ env t fs e, (transfer_body env t.2 fs).1 = Except.error e →
      (download_image env t fs).1 = false)
    ∧ (∀ env t fs, (transfer_body env t.2 fs).1 = Except.ok () →
      (download_image env t fs).1 = true)
    ∧ (∀ env img fs e, (transfer_body env img.filepath fs).1 = Except.error e →
      (V2.download_image env img fs).1 = false)
    ∧ (∀ env img fs, (transfer_body env img.filepath fs).1 = Except.ok () →
      (V2.download_image env img fs).1 = true)
    ∧ (∀ urls envOf fs i, (envOf i).getError = some TransferError.networkError →
      (download_all urls envOf fs).1.length = urls.length)
    ∧ (∀ (imgs : List V2.Image) envOf fs i, (envOf i).getError = some TransferError.timeoutError →
      (V2.download_tasks envOf 0 imgs fs).1.length = imgs.length) := by
  refine ⟨?_, ?_, ?_, ?_, ?_, ?_⟩
  · intro env t fs e he
    rw [download_image_spec, he]
  · intro env t fs he
    rw [download_image_spec, he]
  · intro env img fs e he
    rw [v2_download_image_spec, he]
  · intro env img fs he
    rw [v2_download_image_spec, he]
  · intro urls envOf fs i _
    exact download_tasks_length envOf urls 0 fs
  · intro imgs envOf fs i _
    exact v2_download_tasks_length envOf imgs 0 fs

/-- C3 witness: the boundary evaluated at concrete failing and succeeding
environments. -/
theorem C3_witness :
    (download_image (TransferEnv.mk (some TransferError.networkError) 200 [] none)
      ([], []) (FS.mk [])).1 = false
    ∧ (download_image (TransferEnv.mk none 200 [] none) ([], []) (FS.mk [])).1 = true := by
  constructor
  · exact C3_task_boundary.1 (TransferEnv.mk (some TransferError.networkError) 200 [] none)
      ([], []) (FS.mk []) TransferError.networkError rfl
  · exact C3_task_boundary.2.1 (TransferEnv.mk none 200 [] none) ([], []) (FS.mk []) rfl

/-- C4: the worker pool produces exactly one TransferResult per submitted
task: the gathered result list of v1 download_all, and of the per-task gather
inside v2 _download_all, has exactly the length of the submitted task list. -/
theorem C4_one_result_per_task :
    (∀ urls envOf fs, (download_all urls envOf fs).1.length = urls.length)
    ∧ (∀ (imgs : List V2.Image) envOf fs,
      (V2.download_tasks envOf 0 imgs fs).1.length = imgs.length) := by
  constructor
  · intro urls envOf fs
    exact download_tasks_length envOf urls 0 fs
  · intro imgs envOf fs
    exact v2_download_tasks_length envOf imgs 0 fs

/-- C7: when the source responds with a failure status (>= 400, and
session.get itself succeeded), raise_for_status raises before the destination
file is opened: the task yields a failed result and the filesystem is exactly
as before — no truncated file is created, in both v1 and v2. -/
theorem C7_status_before_write :
    ∀ env t img fs, env.getError = none → 400 ≤ env.status →
      download_image env t fs = (false, fs) ∧ V2.download_image env img fs = (false, fs) := by
  intro env t img fs hget hst
  constructor
  · rw [download_image_spec]
    simp [transfer_body, hget, hst]
  · rw [v2_download_image_spec]
    simp [transfer_body, hget, hst]

/-- C7 witness: a 404 response leaves the (empty) filesystem untouched. -/
theorem C7_witness :
    download_image (TransferEnv.mk none 404 [] none) ([], []) (FS.mk []) = (false, FS.mk [])
    ∧ V2.download_image (TransferEnv.mk none 404 [] none) (V2.Image.mk [] []) (FS.mk [])
      = (false, FS.mk []) :=
  C7_status_before_write (TransferEnv.mk none 404 [] none) ([], []) (V2.Image.mk [] [])
    (FS.mk []) rfl (by decide)

/-- C8 counterexample: the claim includes batches of zero tasks, but for an
account with no taken and no tagged photos (photos_count = tagged_count = 0,
a reachable batch), the assert total_count != 0 guarding _download_all fires:
archive ends in the AssertionError "No photos to download!", not in a final
"X / Y downloaded" summary. -/
theorem C8_counterexample :
    V2.archive 0 0 [] (fun _ => TransferEnv.mk none 200 [] none) (FS.mk [])
      = Except.error ("No photos to download!".data) := rfl

/-- C8 amended: for every batch whose download phase starts with a nonzero
total_count — including batches where every task fails — v2 archive ends
normally with the summary pair (X, Y) = (successes, total_count), X bounded by
the number of tasks; and the v1 download_all summary always reports
(sum of successes) / len(image_urls), successes bounded by the task count
(v1 has no assertion, so this includes the empty batch). -/
theorem C8_summary :
    (∀ photos_count tagged_count imgs envOf fs, photos_count + tagged_count ≠ 0 →
      ∃ n fs2, V2.archive photos_count tagged_count imgs envOf fs
          = Except.ok ((n, photos_count + tagged_count), fs2)
        ∧ n ≤ imgs.length)
    ∧ (∀ urls envOf fs, (download_all_summary urls envOf fs).2 = urls.length
        ∧ (download_all_summary urls envOf fs).1 ≤ urls.length) := by
  constructor
  · intro pc tc imgs envOf fs h
    refine ⟨(V2.download_tasks envOf 0 imgs fs).1.countP (fun b => b),
      (V2.download_tasks envOf 0 imgs fs).2, ?_, ?_⟩
    · simp [V2.archive, V2.download_all, h]
    · calc (V2.download_tasks envOf 0 imgs fs).1.countP (fun b => b)
          ≤ (V2.download_tasks envOf 0 imgs fs).1.length := List.countP_le_length _
        _ = imgs.length := v2_download_tasks_length envOf imgs 0 fs
  · intro urls envOf fs
    refine ⟨rfl, ?_⟩
    calc (download_all urls envOf fs).1.countP (fun b => b)
        ≤ (download_all urls envOf fs).1.length := List.countP_le_length _
      _ = urls.length := download_tasks_length envOf urls 0 fs

/-- C8 witness: a one-task batch whose single transfer fails still ends with
the summary (0 successes / 1 attempted). -/
theorem C8_witness :
    ∃ n fs2, V2.archive 1 0 [V2.Image.mk [] []]
        (fun _ => TransferEnv.mk (some TransferError.networkError) 200 [] none) (FS.mk [])
        = Except.ok ((n, 1), fs2)
      ∧ n ≤ 1 :=
  C8_summary.1 1 0 [V2.Image.mk [] []]
    (fun _ => TransferEnv.mk (some TransferError.networkError) 200 [] none) (FS.mk [])
    (by decide)

theorem inFlight_append (a b : List TaskPhase) :
    inFlight (a ++ b) = inFlight a + inFlight b := by
  induction a with
  | nil => simp [inFlight]
  | cons p s ih =>
    cases p <;> simp [inFlight, ih]
    all_goals omega

theorem inFlight_poolStart (n : Nat) : inFlight (poolStart n) = 0 := by
  induction n with
  | zero => rfl
  | succ n ih => simpa [poolStart, List.replicate_succ, inFlight] using ih

theorem pool_invariant (C : Nat) : ∀ {s t : List TaskPhase},
    PoolReach C s t → inFlight s ≤ C → inFlight t ≤ C := by
  intro s t h
  induction h with
  | refl => exact id
  | step hr hs ih =>
    intro h0
    have ht := ih h0
    cases hs with
    | acquire s1 s2 hlt =>
      rw [inFlight_append] at hlt ⊢
      simp [inFlight] at hlt ⊢
      omega
    | finish s1 s2 =>
      rw [inFlight_append] at ht ⊢
      simp [inFlight] at ht ⊢
      omega

/-- C9: under the semaphore discipline of download_image (v1, Semaphore(50))
and _download_image (v2, Semaphore(30)) — a waiting task may begin its
transfer only while fewer than C transfers hold the semaphore — every state
reachable from a fresh batch of n tasks has at most C transfers in flight. -/
theorem C9_concurrency_ceiling :
    (∀ n s, PoolReach CONCURRENCY (poolStart n) s → inFlight s ≤ CONCURRENCY)
    ∧ (∀ n s, PoolReach V2.CONCURRENCY (poolStart n) s → inFlight s ≤ V2.CONCURRENCY)
    ∧ CONCURRENCY = 50 ∧ V2.CONCURRENCY = 30 := by
  refine ⟨?_, ?_, rfl, rfl⟩ <;>
    exact fun n s h => pool_invariant _ h (by rw [inFlight_poolStart]; exact Nat.zero_le _)

/-- C9 witness: the start state of a 3-task batch respects both ceilings. -/
theorem C9_witness :
    inFlight (poolStart 3) ≤ CONCURRENCY ∧ inFlight (poolStart 3) ≤ V2.CONCURRENCY :=
  ⟨C9_concurrency_ceiling.1 3 (poolStart 3) (PoolReach.refl _),
   C9_concurrency_ceiling.2.1 3 (poolStart 3) (PoolReach.refl _)⟩

theorem download_image_data_pages_eq (pages : List (List V2.Image)) :
    ∀ cs, (V2.download_image_data_pages cs pages).images_to_download
      = cs.images_to_download ++ pages.flatten := by
  induction pages with
  | nil => intro cs; simp [V2.download_image_data_pages]
  | cons pg rest ih => intro cs; simp [V2.download_image_data_pages, ih]

/-- C10: images_to_download is class-level shared state: _download_image_data
extends it in place and neither __init__ nor create resets it, so after a
first instance gathers pages A and a second instance gathers pages B, the
shared list is A.flatten ++ B.flatten — the second run's task list starts
with every task gathered by the first run. -/
theorem C10_shared_class_list : ∀ (a1 a2 : Nat) (A B : List (List V2.Image)),
    (V2.download_image_data_pages
        (V2.create a2 (V2.download_image_data_pages (V2.create a1 (V2.ClassState.mk [])).2 A)).2
        B).images_to_download
      = A.flatten ++ B.flatten
    ∧ ∀ img, img ∈ A.flatten →
        img ∈ (V2.download_image_data_pages
          (V2.create a2 (V2.download_image_data_pages (V2.create a1 (V2.ClassState.mk [])).2 A)).2
          B).images_to_download := by
  intro a1 a2 A B
  have h : (V2.download_image_data_pages
      (V2.create a2 (V2.download_image_data_pages (V2.create a1 (V2.ClassState.mk [])).2 A)).2
      B).images_to_download = A.flatten ++ B.flatten := by
    simp [V2.create, download_image_data_pages_eq]
  refine ⟨h, ?_⟩
  intro img hm
  rw [h]
  exact List.mem_append.mpr (Or.inl hm)

/-- C10 witness: a task gathered by the first instance is in the second
instance's task list. -/
theorem C10_witness :
    V2.Image.mk [] [] ∈ (V2.download_image_data_pages
      (V2.create 2 (V2.download_image_data_pages (V2.create 1 (V2.ClassState.mk [])).2
        [[V2.Image.mk [] []]])).2
      []).images_to_download :=
  (C10_shared_class_list 1 2 [[V2.Image.mk [] []]] []).2 (V2.Image.mk [] []) (by simp)

/-- C5: destination filenames.  For any record whose shortened creation date
and numeric identifiers render without a '.' (true of every ISO-8601
timestamp, whose date part is dot-free, and of every decimal integer), the
filename is creation-day, then [Id] (v1) — respectively [Id] [player: ...]
[room: ...] (v2) — then the image reference name, and ".png" is appended
exactly when the image reference name contains no '.'.  The claim's concrete
scenario: CreatedAt 2023-10-12T20:24:50.0168341Z, Id 42, ImageName abc123
yields a filename beginning "2023-10-12 [42]" and ending "abc123.png" in both
versions. -/
theorem C5_filename :
    (∀ (ImageName CreatedAt : List Char) (Id : Nat),
      '.' ∉ before_T CreatedAt → '.' ∉ (Nat.repr Id).data →
      create_image_tuple ImageName CreatedAt Id =
        ("https://img.rec.net/".data ++ ImageName,
         FOLDER ++ "/".data ++
           ((before_T CreatedAt ++ " [".data ++ (Nat.repr Id).data ++ "] ".data ++ ImageName)
             ++ (if '.' ∈ ImageName then [] else ".png".data))))
    ∧ (∀ (Id : Nat) (CreatedAt : List Char) (PlayerId RoomId : Nat) (ImageName : List Char),
      '.' ∉ V2.shorten_creation_timestamp CreatedAt → '.' ∉ (Nat.repr Id).data →
      '.' ∉ (Nat.repr PlayerId).data → '.' ∉ (Nat.repr RoomId).data →
      V2.format_filename Id CreatedAt PlayerId RoomId ImageName =
        (V2.shorten_creation_timestamp CreatedAt ++ " [".data ++ (Nat.repr Id).data
          ++ "] [player: ".data ++ (Nat.repr PlayerId).data
          ++ "] [room: ".data ++ (Nat.repr RoomId).data ++ "] ".data ++ ImageName)
        ++ (if '.' ∈ ImageName then [] else ".png".data))
    ∧ create_image_tuple ("abc123".data) ("2023-10-12T20:24:50.0168341Z".data) 42
        = ("https://img.rec.net/abc123".data, "images/2023-10-12 [42] abc123.png".data)
    ∧ V2.format_filename 42 ("2023-10-12T20:24:50.0168341Z".data) 205981 1203872 ("abc123".data)
        = "2023-10-12 [42] [player: 205981] [room: 1203872] abc123.png".data := by
  refine ⟨?_, ?_, by decide, by decide⟩
  · intro name date id hd hi
    by_cases hn : '.' ∈ name
    · have hmem : '.' ∈ (before_T date ++ " [".data ++ (Nat.repr id).data ++ "] ".data ++ name) :=
        List.mem_append.mpr (Or.inr hn)
      simp [create_image_tuple, add_png_extension_if_missing, hmem, hn]
    · have hmem : '.' ∉ (before_T date ++ " [".data ++ (Nat.repr id).data ++ "] ".data ++ name) := by
        intro hc
        simp only [List.mem_append] at hc
        rcases hc with ((((h | h) | h) | h) | h)
        · exact hd h
        · exact absurd h (by decide)
        · exact hi h
        · exact absurd h (by decide)
        · exact hn h
      simp [create_image_tuple, add_png_extension_if_missing, hmem, hn]
      exact ⟨hd, hi⟩
  · intro id date p r name hd hid hp hr
    by_cases hn : '.' ∈ name
    · have hmem : '.' ∈ (V2.shorten_creation_timestamp date ++ " [".data ++ (Nat.repr id).data
          ++ "] [player: ".data ++ (Nat.repr p).data
          ++ "] [room: ".data ++ (Nat.repr r).data ++ "] ".data ++ name) :=
        List.mem_append.mpr (Or.inr hn)
      simp [V2.format_filename, V2.add_png_extension_if_missing, hmem, hn]
    · have hmem : '.' ∉ (V2.shorten_creation_timestamp date ++ " [".data ++ (Nat.repr id).data
          ++ "] [player: ".data ++ (Nat.repr p).data
          ++ "] [room: ".data ++ (Nat.repr r).data ++ "] ".data ++ name) := by
        intro hc
        simp only [List.mem_append] at hc
        rcases hc with ((((((((h | h) | h) | h) | h) | h) | h) | h) | h)
        · exact hd h
        · exact absurd h (by decide)
        · exact hid h
        · exact absurd h (by decide)
        · exact hp h
        · exact absurd h (by decide)
        · exact hr h
        · exact absurd h (by decide)
        · exact hn h
      simp [V2.format_filename, V2.add_png_extension_if_missing, hmem, hn]
      exact ⟨hd, hid, hp, hr⟩

/-- C5 witness: a reference name that already carries an extension gets no
second ".png"; evaluated through the theorem at concrete inputs. -/
theorem C5_witness :
    create_image_tuple ("a.b".data) ("2020-01-02T0".data) 7
      = ("https://img.rec.net/a.b".data, "images/2020-01-02 [7] a.b".data) := by
  have h := C5_filename.1 ("a.b".data) ("2020-01-02T0".data) 7 (by decide) (by decide)
  exact h.trans (by decide)
